import Mathlib

/-!
Verification development for the auth UI of this repository.

The embedded code lives in:
* `src/ui/app/components/auth-form.js` — the `AuthForm` Ember component
  (attribute-change handling, token unwrap, method discovery trigger,
  submit/authenticate flow, WebAuthn assertion ceremony);
* `src/ui/app/utils/encode-decode.js` — `bufferEncode` / `bufferDecode`.

JavaScript values that are "a string, or null/undefined" are modelled as
`Option String` (`none` = null/undefined); JS string truthiness (null,
undefined and `""` are falsy) is `truthyStr`.  Bytes are `Nat` with the
range constraint `< 256` stated where it matters.
-/

/-- JS truthiness of a nullable string value: null/undefined and the empty
string are falsy, every other string is truthy. -/
def truthyStr : Option String → Bool
  | none => false
  | some s => s ≠ ""

/-- JS `toLowerCase` on the ASCII strings used as backend type names. -/
def jsToLower (s : String) : String :=
  String.mk (s.toList.map Char.toLower)

/-- A backend descriptor object.  Catalog entries carry `type` and
`formAttributes`; server-reported mounts additionally carry `path`, `id`
and `mountDescription` (the latter is irrelevant to every claim and is
omitted).  The JS objects are ducks; absent fields are `none`. -/
structure AuthBackendDescriptor where
  type : String
  path : Option String
  id : Option String
  formAttributes : List String
deriving DecidableEq, Repr

/-- Modelled from the spec: the static Backend Catalog returned by
`supportedAuthBackends()` (file `vault/helpers/supported-auth-backends`,
imported at `src/ui/app/components/auth-form.js:9,15`, is not present
under `src/`).  Per spec §4.2 it is a compiled-in, never-mutated list of
descriptors, each with its required form-field names; §8 establishes that
`userpass` is in the catalog (fields `username`, `password`) and `approle`
is not; §4.4/§8 establish that `token` is in the catalog with form field
`token` (the unwrap flow selects it and submits `data.token`).  The
claims below are insensitive to any further catalog entries. -/
def BACKENDS : List AuthBackendDescriptor :=
  [ { type := "token", path := none, id := none, formAttributes := ["token"] },
    { type := "userpass", path := none, id := none,
      formAttributes := ["username", "password"] } ]

/-- The mutable component state of `AuthForm`
(`src/ui/app/components/auth-form.js:32-54` plus the `error` / `isLoading`
fields set by the tasks and actions).  `DEFAULTS` contributes `token`,
`username`, `password`, `customPath`; the extend body contributes
`selectedAuth`, `methods`, `namespace`, `wrappedToken`, `oldNamespace`
(and, set later, `oldWrappedToken`, `oldSelectedAuth`). -/
structure AuthFormState where
  selectedAuth : Option String
  oldSelectedAuth : Option String
  methods : Option (List AuthBackendDescriptor)
  wrappedToken : Option String
  oldWrappedToken : Option String
  «namespace» : Option String
  oldNamespace : Option String
  token : Option String
  username : Option String
  password : Option String
  customPath : Option String
  error : Option String
  isLoading : Bool
deriving DecidableEq, Repr

/-- The component state at mount: every nullable field unset, per
`DEFAULTS` and the property declarations
(`src/ui/app/components/auth-form.js:32-54`). -/
def initialState : AuthFormState :=
  { selectedAuth := none, oldSelectedAuth := none, methods := none,
    wrappedToken := none, oldWrappedToken := none, «namespace» := none,
    oldNamespace := none, token := none, username := none, password := none,
    customPath := none, error := none, isLoading := false }

/-- The attributes a parent passes on one attribute-change pass
(query-param driven: `wrappedToken`, `namespace`, `selectedAuth`). -/
structure AttrInput where
  wrappedToken : Option String
  «namespace» : Option String
  selectedAuth : Option String
deriving DecidableEq, Repr

/-- The operations an attribute-change pass performs (observable effects of
`didReceiveAttrs`): whether `fetchMethods.perform()` ran, and the token
value `unwrapToken.perform(token)` was started with, if any. -/
structure PassEffects where
  fetchPerformed : Bool
  unwrapPerformed : Option String
deriving DecidableEq, Repr

/-- One attribute-change pass: `didReceiveAttrs`
(`src/ui/app/components/auth-form.js:56-82`).  The parent first writes the
incoming attrs; the handler destructures
`{wrappedToken, oldWrappedToken, oldNamespace, namespace, selectedAuth,
oldSelectedAuth}` and then, in the deferred closure, in order:
performs `fetchMethods` when `!token && (oldNS === null || oldNS !== ns)`;
sets `oldNamespace := ns`; when `token && !oldToken` performs
`unwrapToken.perform(token)` — whose synchronous prefix up to its first
`yield` sets `selectedAuth` to `'token'` (line 175); the rest of that task
is modelled by `unwrapTokenRun` below — and sets `oldWrappedToken := token`;
when `oldMethod && oldMethod !== newMethod` runs `resetDefaults()`
(`setProperties(DEFAULTS)`, lines 112-114: clears `token`, `username`,
`password`, `customPath` — `DEFAULTS` has no `error` key); finally sets
`oldSelectedAuth := newMethod`. -/
def didReceiveAttrs (s : AuthFormState) (a : AttrInput) :
    AuthFormState × PassEffects :=
  let s0 : AuthFormState :=
    { s with wrappedToken := a.wrappedToken, «namespace» := a.«namespace»,
             selectedAuth := a.selectedAuth }
  let token := a.wrappedToken
  let oldToken := s.oldWrappedToken
  let oldNS := s.oldNamespace
  let ns := a.«namespace»
  let newMethod := a.selectedAuth
  let oldMethod := s.oldSelectedAuth
  let fetchPerformed := !truthyStr token && (oldNS == none || oldNS != ns)
  let s1 : AuthFormState := { s0 with oldNamespace := ns }
  let unwrapCond := truthyStr token && !truthyStr oldToken
  let s2 : AuthFormState :=
    if unwrapCond then
      { s1 with selectedAuth := some "token", oldWrappedToken := token }
    else s1
  let s3 : AuthFormState :=
    if truthyStr oldMethod && oldMethod != newMethod then
      { s2 with token := none, username := none, password := none,
                customPath := none }
    else s2
  let s4 : AuthFormState := { s3 with oldSelectedAuth := newMethod }
  (s4, { fetchPerformed := fetchPerformed,
         unwrapPerformed := if unwrapCond then token else none })

/-- Running a sequence of attribute-change passes, collecting each pass's
effects in order. -/
def runPasses (s : AuthFormState) : List AttrInput →
    AuthFormState × List PassEffects
  | [] => (s, [])
  | a :: rest =>
    let p := didReceiveAttrs s a
    let r := runPasses p.1 rest
    (r.1, p.2 :: r.2)

/-- The wrapped-token value of the first pass in a sequence that carries a
truthy `wrappedToken`, as a list of zero or one elements. -/
def firstTruthyWrappedToken : List AttrInput → List String
  | [] => []
  | a :: rest =>
    if truthyStr a.wrappedToken then a.wrappedToken.toList
    else firstTruthyWrappedToken rest

/-! ### Base64 codec (`src/ui/app/utils/encode-decode.js`) -/

/-- The standard base64 alphabet used by `btoa` / `atob`. -/
def b64Alphabet : List Char :=
  "ABCDEFGHIJKLMNOPQRSTUVWXYZabcdefghijklmnopqrstuvwxyz0123456789+/".toList

/-- The alphabet character for a 6-bit value. -/
def b64CharOf (n : Nat) : Char := b64Alphabet.getD n 'A'

/-- The 6-bit value of an alphabet character, `none` for any character
outside the standard base64 alphabet (in particular for `-`, `_`, `=`). -/
def b64IndexOf (ch : Char) : Option Nat :=
  b64Alphabet.indexOf? ch

/-- `btoa` on a byte sequence: standard base64 encoding with `=` padding.
`bufferEncode` applies `btoa` to `String.fromCharCode` of the bytes, so the
code points encoded are exactly the byte values. -/
def btoaBytes : List Nat → List Char
  | [] => []
  | [b1] =>
    [b64CharOf (b1 / 4), b64CharOf (b1 % 4 * 16), '=', '=']
  | [b1, b2] =>
    [b64CharOf (b1 / 4), b64CharOf (b1 % 4 * 16 + b2 / 16),
     b64CharOf (b2 % 16 * 4), '=']
  | b1 :: b2 :: b3 :: rest =>
    b64CharOf (b1 / 4) :: b64CharOf (b1 % 4 * 16 + b2 / 16) ::
    b64CharOf (b2 % 16 * 4 + b3 / 64) :: b64CharOf (b3 % 64) ::
    btoaBytes rest

/-- `bufferEncode` (`src/ui/app/utils/encode-decode.js:5-10`):
`btoa(String.fromCharCode(...bytes))` followed by the global replacements
`+`→`-`, `/`→`_` and removal of every `=`. -/
def bufferEncode (bytes : List Nat) : List Char :=
  ((btoaBytes bytes).map fun ch =>
      if ch = '+' then '-' else if ch = '/' then '_' else ch).filter
    fun ch => ch ≠ '='

/-- Decoding of a whitespace-free, padding-free base64 chunk whose
characters are all in the standard alphabet: groups of 4 characters give
3 bytes; a trailing group of 2 or 3 characters gives 1 or 2 bytes (the
leftover low bits are discarded, per forgiving-base64). -/
def b64DecodeGroups : List Nat → List Nat
  | [] => []
  | [_] => []
  | [n1, n2] => [n1 * 4 + n2 / 16]
  | [n1, n2, n3] => [n1 * 4 + n2 / 16, n2 % 16 * 16 + n3 / 4]
  | n1 :: n2 :: n3 :: n4 :: rest =>
    (n1 * 4 + n2 / 16) :: (n2 % 16 * 16 + n3 / 4) :: (n3 % 4 * 64 + n4) ::
    b64DecodeGroups rest

/-- Strip up to two trailing `=` characters. -/
def b64StripPadding (l : List Char) : List Char :=
  match l.reverse with
  | '=' :: '=' :: rest => rest.reverse
  | '=' :: rest => rest.reverse
  | _ => l

/-- `atob`, as bytes (the code points of the returned string): the WHATWG
forgiving-base64 decode.  Remove ASCII whitespace; if the length is a
multiple of 4, strip up to two trailing `=`; fail if the remaining length
is 1 mod 4 or any remaining character is outside the standard base64
alphabet (so `-`, `_` and interior `=` all fail); otherwise decode. -/
def atobBytes (value : List Char) : Option (List Nat) :=
  let t := value.filter fun ch => !ch.isWhitespace
  let t := if t.length % 4 = 0 then b64StripPadding t else t
  if t.length % 4 = 1 then none
  else
    let digits := t.map b64IndexOf
    if digits.any Option.isNone then none
    else some (b64DecodeGroups (digits.map fun d => d.getD 0))

/-- `bufferDecode` (`src/ui/app/utils/encode-decode.js:1-3`):
`Uint8Array.from(atob(value), c => c.charCodeAt(0))`, i.e. the byte values
of `atob`'s output; `none` models the `InvalidCharacterError` `atob`
throws on input outside the standard alphabet or with bad length. -/
def bufferDecode (value : List Char) : Option (List Nat) :=
  atobBytes value

example : bufferDecode (bufferEncode [1, 2, 3, 4]) = some [1, 2, 3, 4] := by
  decide

example : bufferDecode (bufferEncode [104, 105]) = some [104, 105] := by
  decide

example : bufferEncode [251] = ['-', 'w'] := by decide

/-! ### Backend lookup, submit, unwrap, authenticate
(`src/ui/app/components/auth-form.js`) -/

/-- Ember `decamelize` on the char list: insert `_` between a lowercase
letter or digit and an uppercase letter (regex
`/([a-z\d])([A-Z])/g` with `$1_$2`), before lowercasing. -/
def decamelizeChars : List Char → List Char
  | [] => []
  | [c1] => [c1]
  | c1 :: c2 :: rest =>
    if (c1.isLower || c1.isDigit) && c2.isUpper then
      c1 :: '_' :: decamelizeChars (c2 :: rest)
    else
      c1 :: decamelizeChars (c2 :: rest)

/-- Ember `dasherize` (external `@ember/string` collaborator, used at
`src/ui/app/components/auth-form.js:147`): decamelize, lowercase, then
replace every space or `_` with `-`. -/
def dasherize (s : String) : String :=
  String.mk
    (((decamelizeChars s.toList).map Char.toLower).map fun ch =>
      if ch = ' ' || ch = '_' then '-' else ch)

/-- The result of `getAuthBackend`: the JS value is either `undefined` (here `missing`)
(a failed `findBy`, falsy), the literal `{}` returned on the
no-methods-no-wrapped-token path (truthy, but with `type` and `id`
undefined), or a found descriptor. -/
inductive BackendLookup where
  | missing
  | emptyObj
  | found (b : AuthBackendDescriptor)
deriving DecidableEq, Repr

/-- `backend.type` as used via `(backend.type || '')`: the empty string
when the lookup produced `undefined` or `{}`. -/
def BackendLookup.typeOrEmpty : BackendLookup → String
  | .found b => b.type
  | _ => ""

/-- `backend.id`: `undefined` unless a descriptor with an `id` was found. -/
def BackendLookup.idField : BackendLookup → Option String
  | .found b => b.id
  | _ => none

/-- `selectedAuthIsPath` (`src/ui/app/components/auth-form.js:129`):
`match('selectedAuth', /\/$/)` — false for a non-string, otherwise whether
the value's last character is `/`. -/
def selectedAuthIsPath (s : AuthFormState) : Bool :=
  match s.selectedAuth with
  | none => false
  | some str => str.toList.getLast? == some '/'

/-- `getAuthBackend(type)` (`src/ui/app/components/auth-form.js:116-127`):
`selected = type || selectedAuth`; return `{}` when neither `methods` nor
`wrappedToken` is truthy (an array, even empty, is truthy — so truthiness
of `methods` is `isSome`); when `selectedAuthIsPath && !type`, look
`selected` up by `path` in `methods` (the JS would throw if `methods` were
null here, which requires a truthy `wrappedToken`; modelled as no result);
otherwise look `selected` up by `type` in the static catalog (strict
`===`, not case-insensitive). -/
def getAuthBackend (s : AuthFormState) (ty : Option String) : BackendLookup :=
  let selected := if truthyStr ty then ty else s.selectedAuth
  if !s.methods.isSome && !truthyStr s.wrappedToken then .emptyObj
  else if selectedAuthIsPath s && !truthyStr ty then
    match (s.methods.getD []).find? (fun b => b.path == selected) with
    | some b => .found b
    | none => .missing
  else
    match BACKENDS.find? (fun b => some b.type == selected) with
    | some b => .found b
    | none => .missing

/-- `selectedAuthBackend` (`src/ui/app/components/auth-form.js:130-139`):
`getAuthBackend()` with no type argument. -/
def selectedAuthBackend (s : AuthFormState) : BackendLookup :=
  getAuthBackend s none

/-- `providerName` (`src/ui/app/components/auth-form.js:141-149`):
undefined when `selectedAuthBackend` is falsy (only `undefined` is; the
`{}` result is truthy), else `dasherize((type || 'token').toLowerCase())`. -/
def providerName (s : AuthFormState) : Option String :=
  match selectedAuthBackend s with
  | .missing => none
  | b =>
    let ty := if b.typeOrEmpty = "" then "token" else b.typeOrEmpty
    some (dasherize (jsToLower ty))

/-- `methodsToShow` (`src/ui/app/components/auth-form.js:164-170`):
filter `this.methods || []` to the mounts whose type matches a catalog
type case-insensitively (`BACKENDS.find` truthiness); if the filtered list
is non-empty return it, else return the full catalog. -/
def methodsToShow (methods : Option (List AuthBackendDescriptor)) :
    List AuthBackendDescriptor :=
  let ms := methods.getD []
  let shownMethods :=
    ms.filter fun m => BACKENDS.any fun b => jsToLower b.type == jsToLower m.type
  if shownMethods.length ≠ 0 then shownMethods else BACKENDS

/-- Reading a key from a JS object built by successive assignments,
modelled as an association list where a later entry overrides an earlier
one: `some v` when the key is present with value `v` (itself a nullable
string), `none` when the key is absent. -/
def jsGet (o : List (String × Option String)) (k : String) :
    Option (Option String) :=
  o.reverse.lookup k

/-- `this.getProperties(...attributes)` for the component fields that the
catalog's `formAttributes` can name. -/
def getProp (s : AuthFormState) : String → Option String
  | "token" => s.token
  | "username" => s.username
  | "password" => s.password
  | _ => none

/-- The authenticate invocation `authenticate.unlinked().perform(backend.type,
data)` started by `doSubmit` (`src/ui/app/components/auth-form.js:344`). -/
structure AuthCall where
  backendType : Option String
  data : List (String × Option String)
deriving DecidableEq, Repr

/-- The argument-building part of the `doSubmit` action
(`src/ui/app/components/auth-form.js:315-345`), evaluated on the state
`s1` that already has `error` cleared: resolve `backend` (by type `token`
when `providerName === 'oidc'`, else `selectedAuthBackend || {}`); find
`backendMeta` in the catalog by case-insensitive type; gather the values
of its `formAttributes`; override with any passed data; attach
`path = customPath || backend.id` when that value is truthy. -/
def doSubmitCall (s1 : AuthFormState)
    (passedData : Option (List (String × Option String))) : AuthCall :=
  let backend : BackendLookup :=
    if providerName s1 == some "oidc" then getAuthBackend s1 (some "token")
    else
      match selectedAuthBackend s1 with
      | .missing => .emptyObj
      | b => b
  let backendMeta :=
    BACKENDS.find? fun b =>
      -- `(b.type || '')` equals `b.type` for every string value of `b.type`
      jsToLower b.type == jsToLower backend.typeOrEmpty
  let attributes := (backendMeta.map (·.formAttributes)).getD []
  let data0 := attributes.map fun attr => (attr, getProp s1 attr)
  let data1 := data0 ++ passedData.getD []
  let pathVal :=
    if truthyStr s1.customPath then s1.customPath else backend.idField
  let data2 := if truthyStr pathVal then data1 ++ [("path", pathVal)] else data1
  { backendType :=
      match backend with
      | .found b => some b.type
      | _ => none,
    data := data2 }

/-- The `doSubmit` action (`src/ui/app/components/auth-form.js:315-345`):
set `error` to null (`setProperties({error: null})`, lines 326-328), then
build and start the authenticate call from the resulting state.  The only
state field the action itself writes is `error`. -/
def doSubmit (s : AuthFormState)
    (passedData : Option (List (String × Option String))) :
    AuthFormState × AuthCall :=
  let s1 : AuthFormState := { s with error := none }
  (s1, doSubmitCall s1 passedData)

/-- The outcome of the wrapping/unwrap network exchange
(`adapter.toolAction('unwrap', ...)`): the `auth.client_token` of a
successful response, or the `errors` array of a failure. -/
inductive UnwrapResult where
  | success (clientToken : String)
  | failure (errors : List String)
deriving DecidableEq, Repr

/-- JS `e.errors[0]` as interpolated into a template literal: the first
element, or the string `"undefined"` when the array is empty. -/
def jsIndexZero (l : List String) : String := l.headD "undefined"

/-- The `unwrapToken` task (`src/ui/app/components/auth-form.js:172-185`)
run to completion with a given exchange outcome: set `selectedAuth` to
`'token'`; on success set `token` to the returned `client_token` and run
the `doSubmit` action (no passed data), starting its authenticate call;
on failure set `error` to `` `Token unwrap failed: ${e.errors[0]}` `` and
start no authenticate call.  Returns the final state and the authenticate
calls started. -/
def unwrapTokenRun (s : AuthFormState) (r : UnwrapResult) :
    AuthFormState × List AuthCall :=
  let s1 : AuthFormState := { s with selectedAuth := some "token" }
  match r with
  | .success ct =>
    let s2 : AuthFormState := { s1 with token := some ct }
    let p := doSubmit s2 none
    (p.1, [p.2])
  | .failure errs =>
    ({ s1 with error := some ("Token unwrap failed: " ++ jsIndexZero errs) },
     [])

/-- The outcome of `auth.authenticate` inside the `authenticate` task. -/
inductive AuthOutcome where
  | success (resp : String)
  | failure (err : String)
deriving DecidableEq, Repr

/-- The `authenticate` task (`src/ui/app/components/auth-form.js:217-239`)
from its `yield` onward, parameterised by the external auth service's
`mfaError` flag and `handleError` normalization capability: on success the
response is forwarded to `onSuccess` (returned as the second component)
and the state is untouched; on failure `isLoading` is cleared and, unless
`auth.mfaError` is set, `error` is set to
`` `Authentication failed: ${this.auth.handleError(e)}` ``.  The
`delayAuthMessageReminder` timer it starts is cosmetic and writes none of
these fields. -/
def authenticateRun (s : AuthFormState) (mfaError : Bool)
    (handleError : String → String) (outcome : AuthOutcome) :
    AuthFormState × Option String :=
  match outcome with
  | .success resp => (s, some resp)
  | .failure e =>
    let s1 : AuthFormState := { s with isLoading := false }
    if !mfaError then
      ({ s1 with error := some ("Authentication failed: " ++ handleError e) },
       none)
    else (s1, none)

/-- The first network request issued by the `webauthnAuthenticate` task
(`src/ui/app/components/auth-form.js:241-258`).  Between task entry and
the first `yield` the code runs only `e.preventDefault()`, reads
`this.username` and does a `console.log`; it then unconditionally issues
`` fetch(`/login/begin/${username}`) `` — there is no guard on
`username`.  An unset `username` (the component default is null)
interpolates as the string `"null"`. -/
def webauthnFirstRequest (username : Option String) : String :=
  "/login/begin/" ++ (match username with | none => "null" | some u => u)

/-! ### Helper lemmas: field-by-field behaviour of one attribute-change
pass -/

/-- The guard of the unwrap trigger inside `didReceiveAttrs`:
`token && !oldToken`. -/
def unwrapGuard (s : AuthFormState) (a : AttrInput) : Bool :=
  truthyStr a.wrappedToken && !truthyStr s.oldWrappedToken

/-- The guard of the reset trigger inside `didReceiveAttrs`:
`oldMethod && oldMethod !== newMethod`. -/
def resetGuard (s : AuthFormState) (a : AttrInput) : Bool :=
  truthyStr s.oldSelectedAuth && (s.oldSelectedAuth != a.selectedAuth)

theorem didReceiveAttrs_fetchPerformed (s : AuthFormState) (a : AttrInput) :
    (didReceiveAttrs s a).2.fetchPerformed =
      (!truthyStr a.wrappedToken &&
        (s.oldNamespace == none || s.oldNamespace != a.«namespace»)) := rfl

theorem didReceiveAttrs_unwrapPerformed (s : AuthFormState) (a : AttrInput) :
    (didReceiveAttrs s a).2.unwrapPerformed =
      (if unwrapGuard s a then a.wrappedToken else none) := rfl

theorem didReceiveAttrs_oldNamespace (s : AuthFormState) (a : AttrInput) :
    (didReceiveAttrs s a).1.oldNamespace = a.«namespace» := by
  simp only [didReceiveAttrs]
  split <;> split <;> rfl

theorem didReceiveAttrs_oldWrappedToken (s : AuthFormState) (a : AttrInput) :
    (didReceiveAttrs s a).1.oldWrappedToken =
      (if unwrapGuard s a then a.wrappedToken else s.oldWrappedToken) := by
  simp only [didReceiveAttrs, unwrapGuard]
  split <;> split <;> rfl

theorem didReceiveAttrs_error (s : AuthFormState) (a : AttrInput) :
    (didReceiveAttrs s a).1.error = s.error := by
  simp only [didReceiveAttrs]
  split <;> split <;> rfl

theorem didReceiveAttrs_username (s : AuthFormState) (a : AttrInput) :
    (didReceiveAttrs s a).1.username =
      (if resetGuard s a then none else s.username) := by
  simp only [didReceiveAttrs, resetGuard]
  split <;> split <;> rfl

theorem didReceiveAttrs_password (s : AuthFormState) (a : AttrInput) :
    (didReceiveAttrs s a).1.password =
      (if resetGuard s a then none else s.password) := by
  simp only [didReceiveAttrs, resetGuard]
  split <;> split <;> rfl

theorem didReceiveAttrs_token (s : AuthFormState) (a : AttrInput) :
    (didReceiveAttrs s a).1.token =
      (if resetGuard s a then none else s.token) := by
  simp only [didReceiveAttrs, resetGuard]
  split <;> split <;> rfl

theorem didReceiveAttrs_customPath (s : AuthFormState) (a : AttrInput) :
    (didReceiveAttrs s a).1.customPath =
      (if resetGuard s a then none else s.customPath) := by
  simp only [didReceiveAttrs, resetGuard]
  split <;> split <;> rfl

theorem runPasses_nil (s : AuthFormState) : runPasses s [] = (s, []) := rfl

theorem runPasses_cons (s : AuthFormState) (a : AttrInput)
    (rest : List AttrInput) :
    runPasses s (a :: rest) =
      ((runPasses (didReceiveAttrs s a).1 rest).1,
       (didReceiveAttrs s a).2 :: (runPasses (didReceiveAttrs s a).1 rest).2) :=
  rfl

/-- Once a wrapped token has been handled (`oldWrappedToken` truthy), no
later pass ever performs an unwrap: the guard `token && !oldToken` is
false forever, whatever token values arrive. -/
theorem runPasses_no_unwrap_after_handled (as : List AttrInput) :
    ∀ s : AuthFormState, truthyStr s.oldWrappedToken = true →
      ((runPasses s as).2.filterMap PassEffects.unwrapPerformed) = [] := by
  induction as with
  | nil => intro s _; rfl
  | cons a rest ih =>
    intro s h
    rw [runPasses_cons]
    simp only [List.filterMap_cons, didReceiveAttrs_unwrapPerformed,
      unwrapGuard, h, Bool.not_true, Bool.and_false, if_false]
    exact ih _ (by rw [didReceiveAttrs_oldWrappedToken, unwrapGuard, h]
                   simpa using h)

/-- From a state in which no wrapped token has been handled yet, the
unwrap operations performed along a run are exactly one unwrap of the
first truthy wrapped-token value, and none after it. -/
theorem runPasses_unwrap_events (as : List AttrInput) :
    ∀ s : AuthFormState, truthyStr s.oldWrappedToken = false →
      ((runPasses s as).2.filterMap PassEffects.unwrapPerformed) =
        firstTruthyWrappedToken as := by
  induction as with
  | nil => intro s _; rfl
  | cons a rest ih =>
    intro s h
    rw [runPasses_cons]
    simp only [List.filterMap_cons, didReceiveAttrs_unwrapPerformed,
      unwrapGuard, h, Bool.not_false, Bool.and_true, firstTruthyWrappedToken]
    cases ht : truthyStr a.wrappedToken with
    | false =>
      have hstill : truthyStr (didReceiveAttrs s a).1.oldWrappedToken = false := by
        rw [didReceiveAttrs_oldWrappedToken, unwrapGuard, h, ht]
        simpa using h
      simpa using ih _ hstill
    | true =>
      cases hw : a.wrappedToken with
      | none => rw [hw] at ht; exact absurd ht (by simp [truthyStr])
      | some v =>
        have hhandled :
            truthyStr (didReceiveAttrs s a).1.oldWrappedToken = true := by
          rw [didReceiveAttrs_oldWrappedToken, unwrapGuard, h, ht]
          simpa using ht
        simp only [hw, if_true]
        rw [runPasses_no_unwrap_after_handled rest _ hhandled]
        rfl

/-! ### Claims C1, C4, C5 -/

/-- C1, counterexample: deliver two attribute-change passes to a freshly
mounted component, the first with wrapped token `"a"`, the second with the
new, distinct wrapped token `"b"`.  The first pass performs one unwrap of
`"a"`, but the second pass performs NO unwrap at all (the guard is
`token && !oldToken`, and `oldWrappedToken` is already `"a"`), refuting
the claim that a pass carrying a new distinct wrapped-token value performs
exactly one unwrap for it. -/
theorem unwrap_skipped_for_second_distinct_token :
    ((runPasses initialState
        [{ wrappedToken := some "a", «namespace» := none, selectedAuth := none },
         { wrappedToken := some "b", «namespace» := none,
           selectedAuth := none }]).2.map PassEffects.unwrapPerformed) =
      [some "a", none] := by decide

/-- C1 (corrected): over every sequence of attribute-change passes from
mount, the Token Unwrap operation is performed exactly once for the FIRST
truthy wrapped-token value delivered and never again: a pass whose
wrappedToken equals the last-handled value performs no unwrap, and a pass
carrying a new distinct wrapped-token value after some token was already
handled also performs no unwrap — at most one unwrap per component
lifetime, not one per distinct value. -/
theorem unwrap_exactly_once_for_first_token (as : List AttrInput) :
    ((runPasses initialState as).2.filterMap PassEffects.unwrapPerformed) =
      firstTruthyWrappedToken as :=
  runPasses_unwrap_events as initialState rfl

/-- C4, counterexample: a pass that switches `selectedAuth` from the
non-empty `"token"` to the different `"userpass"` clears `username` but
leaves `error` untouched (`DEFAULTS` at
`src/ui/app/components/auth-form.js:32-37` has no `error` key), refuting
the part of the claim that says `error` is cleared. -/
theorem reset_leaves_error_set :
    (didReceiveAttrs
        { initialState with oldSelectedAuth := some "token",
                            error := some "boom", username := some "alice" }
        { wrappedToken := none, «namespace» := none,
          selectedAuth := some "userpass" }).1.username = none ∧
    (didReceiveAttrs
        { initialState with oldSelectedAuth := some "token",
                            error := some "boom", username := some "alice" }
        { wrappedToken := none, «namespace» := none,
          selectedAuth := some "userpass" }).1.error = some "boom" := by
  decide

/-- C4 (corrected): on every pass whose previous `selectedAuth` is
non-empty and differs from the new value, the form state is reset via
`setProperties(DEFAULTS)`: `username`, `password`, `token` and
`customPath` are cleared, but `error` is NOT cleared — it keeps its
previous value. -/
theorem reset_clears_form_fields_not_error (s : AuthFormState)
    (a : AttrInput) (h1 : truthyStr s.oldSelectedAuth = true)
    (h2 : s.oldSelectedAuth ≠ a.selectedAuth) :
    (didReceiveAttrs s a).1.username = none ∧
    (didReceiveAttrs s a).1.password = none ∧
    (didReceiveAttrs s a).1.token = none ∧
    (didReceiveAttrs s a).1.customPath = none ∧
    (didReceiveAttrs s a).1.error = s.error := by
  have hg : resetGuard s a = true := by
    rw [resetGuard, h1]
    simpa [bne_iff_ne] using h2
  refine ⟨?_, ?_, ?_, ?_, didReceiveAttrs_error s a⟩
  · rw [didReceiveAttrs_username, hg]; rfl
  · rw [didReceiveAttrs_password, hg]; rfl
  · rw [didReceiveAttrs_token, hg]; rfl
  · rw [didReceiveAttrs_customPath, hg]; rfl

/-- Witness for `reset_clears_form_fields_not_error` at a concrete input:
previous selection `"token"`, new selection `"userpass"`, every form field
and the error message populated. -/
theorem reset_clears_form_fields_not_error_witness :
    truthyStr (some "token") = true ∧
    ((didReceiveAttrs
        { initialState with oldSelectedAuth := some "token",
                            username := some "u", password := some "p",
                            token := some "t", customPath := some "c",
                            error := some "boom" }
        { wrappedToken := none, «namespace» := none,
          selectedAuth := some "userpass" }).1.username = none ∧
     (didReceiveAttrs
        { initialState with oldSelectedAuth := some "token",
                            username := some "u", password := some "p",
                            token := some "t", customPath := some "c",
                            error := some "boom" }
        { wrappedToken := none, «namespace» := none,
          selectedAuth := some "userpass" }).1.password = none ∧
     (didReceiveAttrs
        { initialState with oldSelectedAuth := some "token",
                            username := some "u", password := some "p",
                            token := some "t", customPath := some "c",
                            error := some "boom" }
        { wrappedToken := none, «namespace» := none,
          selectedAuth := some "userpass" }).1.token = none ∧
     (didReceiveAttrs
        { initialState with oldSelectedAuth := some "token",
                            username := some "u", password := some "p",
                            token := some "t", customPath := some "c",
                            error := some "boom" }
        { wrappedToken := none, «namespace» := none,
          selectedAuth := some "userpass" }).1.customPath = none ∧
     (didReceiveAttrs
        { initialState with oldSelectedAuth := some "token",
                            username := some "u", password := some "p",
                            token := some "t", customPath := some "c",
                            error := some "boom" }
        { wrappedToken := none, «namespace» := none,
          selectedAuth := some "userpass" }).1.error = some "boom") :=
  ⟨by decide,
   reset_clears_form_fields_not_error _ _ (by decide) (by decide)⟩

/-- C5, counterexample: two passes with no wrapped token and the namespace
unset (null) on both.  The claim says the second (none→none, non-initial)
pass performs no Method Discovery, but the guard
`oldNS === null || oldNS !== ns` is re-entered because `oldNamespace` was
set back to null, so BOTH passes perform `fetchMethods`. -/
theorem fetch_rerun_on_null_to_null_namespace :
    ((runPasses initialState
        [{ wrappedToken := none, «namespace» := none, selectedAuth := none },
         { wrappedToken := none, «namespace» := none,
           selectedAuth := none }]).2.map PassEffects.fetchPerformed) =
      [true, true] := by decide

/-- C5 (corrected): on every pass, Method Discovery is performed iff no
truthy wrapped token is present AND (the last-observed namespace is null
OR it differs from the current namespace); after a pass, the last-observed
namespace equals that pass's namespace value.  Hence on a follow-up pass
the trigger depends on the previous pass's namespace: equal non-null
namespaces perform no discovery, but a null→null pass re-performs it (the
null sentinel that marks the initial pass is indistinguishable from an
unset namespace), so the none→none case is a no-op only for non-null
values. -/
theorem fetch_trigger_characterization (s : AuthFormState)
    (a1 a2 : AttrInput) :
    (didReceiveAttrs s a1).2.fetchPerformed =
      (!truthyStr a1.wrappedToken &&
        (s.oldNamespace == none || s.oldNamespace != a1.«namespace»)) ∧
    (didReceiveAttrs (didReceiveAttrs s a1).1 a2).2.fetchPerformed =
      (!truthyStr a2.wrappedToken &&
        (a1.«namespace» == none || a1.«namespace» != a2.«namespace»)) := by
  refine ⟨didReceiveAttrs_fetchPerformed s a1, ?_⟩
  rw [didReceiveAttrs_fetchPerformed, didReceiveAttrs_oldNamespace]

/-! ### Claims C3, C9, C10 (unwrap and submit) -/

theorem selectedAuthBackend_token (s : AuthFormState)
    (h1 : s.selectedAuth = some "token")
    (h2 : truthyStr s.wrappedToken = true) :
    selectedAuthBackend s =
      .found { type := "token", path := none, id := none,
               formAttributes := ["token"] } := by
  unfold selectedAuthBackend getAuthBackend selectedAuthIsPath
  rw [h1, h2]
  simp [truthyStr, BACKENDS]

theorem providerName_token (s : AuthFormState)
    (h1 : s.selectedAuth = some "token")
    (h2 : truthyStr s.wrappedToken = true) :
    providerName s = some "token" := by
  unfold providerName
  rw [selectedAuthBackend_token s h1 h2]
  rfl

/-- With the token backend selected and a truthy wrapped token, the
authenticate call built by `doSubmit` targets backend type `token` and
carries exactly the token form field (plus a `path` field when a custom
path is set). -/
theorem doSubmitCall_token (s1 : AuthFormState)
    (h1 : s1.selectedAuth = some "token")
    (h2 : truthyStr s1.wrappedToken = true) :
    doSubmitCall s1 none =
      { backendType := some "token",
        data := if truthyStr s1.customPath
                then [("token", s1.token), ("path", s1.customPath)]
                else [("token", s1.token)] } := by
  unfold doSubmitCall
  rw [providerName_token s1 h1 h2, selectedAuthBackend_token s1 h1 h2]
  cases hc : truthyStr s1.customPath <;>
    simp [BACKENDS, getProp, BackendLookup.typeOrEmpty, BackendLookup.idField,
      jsToLower, hc, show truthyStr none = false from rfl]

/-- C3 (confirmed): for every run of the Token Unwrap operation (invoked
with the component's truthy wrapped token): on success the `token` field
is set to the returned `client_token` and the submit step starts exactly
one authenticate call, whose backend type is `token` and whose
`data.token` equals the unwrapped client token; on failure the error field
is set to `Token unwrap failed: {first server error string}` and no
authenticate call is started. -/
theorem unwrapToken_outcome_contract (s : AuthFormState) (ct e0 : String)
    (rest : List String) (h : truthyStr s.wrappedToken = true) :
    (unwrapTokenRun s (.success ct)).1.token = some ct ∧
    ((unwrapTokenRun s (.success ct)).2.map fun c =>
        (c.backendType, jsGet c.data "token")) =
      [(some "token", some (some ct))] ∧
    (unwrapTokenRun s (.failure (e0 :: rest))).1.error =
      some ("Token unwrap failed: " ++ e0) ∧
    (unwrapTokenRun s (.failure (e0 :: rest))).2 = [] := by
  refine ⟨rfl, ?_, rfl, rfl⟩
  have hstep : (unwrapTokenRun s (.success ct)).2 =
      [doSubmitCall
        { s with
            selectedAuth := some "token", token := some ct, error := none }
        none] := rfl
  rw [hstep]
  rw [doSubmitCall_token
        { s with
            selectedAuth := some "token", token := some ct, error := none }
        rfl h]
  cases hc : truthyStr s.customPath <;> simp [hc, jsGet, List.lookup]

/-- Witness for `unwrapToken_outcome_contract` at a concrete input: a
fresh component carrying wrapped token `"w"`, client token `"ct"`, server
error list `["bad"]`. -/
theorem unwrapToken_outcome_contract_witness :
    truthyStr
      ({ initialState with wrappedToken := some "w" }
        : AuthFormState).wrappedToken = true ∧
    ((unwrapTokenRun { initialState with wrappedToken := some "w" }
        (.success "ct")).1.token = some "ct" ∧
     ((unwrapTokenRun { initialState with wrappedToken := some "w" }
        (.success "ct")).2.map fun c =>
          (c.backendType, jsGet c.data "token")) =
       [(some "token", some (some "ct"))] ∧
     (unwrapTokenRun { initialState with wrappedToken := some "w" }
        (.failure ("bad" :: []))).1.error =
       some ("Token unwrap failed: " ++ "bad") ∧
     (unwrapTokenRun { initialState with wrappedToken := some "w" }
        (.failure ("bad" :: []))).2 = []) :=
  ⟨by decide, unwrapToken_outcome_contract _ "ct" "bad" [] (by decide)⟩

/-- C9 (confirmed): after every run of the Token Unwrap operation —
success or failure — `selectedAuth` equals `token`: it is forced before
the network call and the failure path does not restore the previous
selection. -/
theorem unwrapToken_forces_token_selection (s : AuthFormState)
    (r : UnwrapResult) :
    (unwrapTokenRun s r).1.selectedAuth = some "token" := by
  cases r <;> rfl

/-- C10 (confirmed): every `doSubmit` invocation first sets `error` to
null and computes everything else from the error-cleared state, so the
submit outcome is independent of any prior error value and the resulting
state carries no error message. -/
theorem doSubmit_clears_error_first (s : AuthFormState)
    (pd : Option (List (String × Option String))) (prior : Option String) :
    (doSubmit s pd).1.error = none ∧
    doSubmit { s with error := prior } pd = doSubmit s pd :=
  ⟨rfl, rfl⟩

/-! ### Claims C6, C7 -/

/-- C6 (confirmed): every failing authenticate invocation clears the
loading flag; unless the external auth service reports the
multi-factor-required condition (`auth.mfaError` set), the error field
becomes `Authentication failed: {detail}` with `{detail}` produced by the
external error-normalization capability `handleError`; in the MFA case the
error field is left untouched. -/
theorem authenticate_failure_contract (s : AuthFormState) (mfa : Bool)
    (handleError : String → String) (e : String) :
    (authenticateRun s mfa handleError (.failure e)).1.isLoading = false ∧
    (authenticateRun s mfa handleError (.failure e)).1.error =
      (if mfa then s.error
       else some ("Authentication failed: " ++ handleError e)) := by
  cases mfa <;> exact ⟨rfl, rfl⟩

/-- C7 (confirmed): for every value of `methods` — unset, empty or
populated — `methodsToShow` equals the subsequence of `methods` whose type
matches a catalog type case-insensitively when that subsequence is
non-empty, and the full static catalog otherwise; in particular both the
unset and the zero-mounts cases yield the full catalog. -/
theorem methodsToShow_catalog_intersection
    (ms : Option (List AuthBackendDescriptor)) :
    (methodsToShow ms =
      if ((ms.getD []).filter fun m =>
            decide (∃ b ∈ BACKENDS, jsToLower b.type = jsToLower m.type)) = []
      then BACKENDS
      else (ms.getD []).filter fun m =>
            decide (∃ b ∈ BACKENDS, jsToLower b.type = jsToLower m.type)) ∧
    methodsToShow none = BACKENDS ∧ methodsToShow (some []) = BACKENDS := by
  refine ⟨?_, rfl, rfl⟩
  have hfe : ((ms.getD []).filter fun m =>
      BACKENDS.any fun b => jsToLower b.type == jsToLower m.type) =
      ((ms.getD []).filter fun m =>
        decide (∃ b ∈ BACKENDS, jsToLower b.type = jsToLower m.type)) := by
    apply List.filter_congr
    intro m _
    rw [Bool.eq_iff_iff]
    simp [List.any_eq_true]
  simp only [methodsToShow]
  rw [hfe]
  rcases eq_or_ne ((ms.getD []).filter fun m =>
      decide (∃ b ∈ BACKENDS, jsToLower b.type = jsToLower m.type)) [] with
    he | he
  · rw [he]
    simp
  · have hlen : ((ms.getD []).filter fun m =>
        decide (∃ b ∈ BACKENDS, jsToLower b.type = jsToLower m.type)).length ≠
          0 := fun hl => he (List.length_eq_zero.mp hl)
    rw [if_pos hlen, if_neg he]

/-! ### Claims C2, C8 -/

/-- C2 (refuted by the code): `bufferEncode [251]` produces `"-w"` (the
standard base64 of the byte `0xFB` is `"+w=="`, and the encoder rewrites
`+` to `-` and strips the padding), but `bufferDecode` is plain `atob`,
whose alphabet does not contain `-`; the decode therefore fails
(`InvalidCharacterError`, modelled as `none`) instead of returning
`[251]`.  The byte sequence `[251]` has length 1, not a multiple of 3, so
it falls squarely inside the claim's quantifier. -/
theorem bufferDecode_fails_on_encoded_251 :
    bufferEncode [251] = ['-', 'w'] ∧
    bufferDecode (bufferEncode [251]) = none := by decide

/-- C8 (refuted by the code): the WebAuthn assertion ceremony issues its
`login-begin` network request unconditionally — with `username` unset
(null) it requests `/login/begin/null`, and with `username` empty it
requests `/login/begin/`; there is no fail-fast guard. -/
theorem webauthn_requests_despite_missing_username :
    webauthnFirstRequest none = "/login/begin/null" ∧
    webauthnFirstRequest (some "") = "/login/begin/" := by decide
